import Mathlib

/-!
Verification of the NSS backend core logic: the OTP (one-time passcode)
lifecycle shared by `User` and `AdminRequest`, the role-based authorization
matrix of the auth middleware, and the donor 90-day eligibility rule,
together with the route handlers that compose them.

Times are modelled as integer milliseconds since the epoch (the JS `Date`
value).  A random draw `Math.random()` is modelled as a rational number
`r` with `0 ≤ r < 1`.  JS truthiness matters in two places and is modelled
explicitly: the string `""` is falsy (the OTP guard `!this.otp.code`), and
a missing (`undefined`) field is falsy.
-/

namespace NSS

/-! ### OTP challenge (models the `otp` subdocument of `User` and
`AdminRequest`: `{ code: String, expiresAt: Date }`, either field possibly
unset) -/

structure OTPChallenge where
  code : Option String
  expiresAt : Option Int
  deriving Repr, DecidableEq

/-- JS truthiness of an optional string: `undefined` and `""` are falsy. -/
def strTruthy : Option String → Bool
  | none => false
  | some s => !(s == "")

/-- Embeds `verifyOTP` (identical in `User.js` lines 57–67 and
`AdminRequest.js` lines 81–91):

    if (!this.otp || !this.otp.code || !this.otp.expiresAt) return false;
    if (new Date() > this.otp.expiresAt) return false;
    return this.otp.code === candidateOTP;

`now` is the value of `new Date()` at call time. -/
def verifyOTP (otp : Option OTPChallenge) (now : Int) (candidate : String) : Bool :=
  match otp with
  | none => false
  | some ch =>
    if !(strTruthy ch.code) then false
    else match ch.expiresAt with
      | none => false
      | some e =>
        if now > e then false
        else (ch.code.getD "") == candidate

/-- The numeric value drawn by `Math.floor(100000 + Math.random() * 900000)`
for a draw `r ∈ [0,1)`. -/
def genOTPValue (r : ℚ) : ℤ :=
  ⌊(100000 : ℚ) + r * 900000⌋

/-- The code string returned by `generateOTP`: the drawn value rendered in
decimal (`.toString()` on a JS integer-valued number). -/
def genOTPCode (r : ℚ) : String :=
  Nat.repr (genOTPValue r).toNat

/-- Embeds `generateOTP` (identical in `User.js` lines 47–54 and
`AdminRequest.js` lines 71–78) as a function of the random draw and the
current time, applied to the entity's previous challenge: it returns the
code and the new stored challenge, ignoring the previous one.

    const otp = Math.floor(100000 + Math.random() * 900000).toString();
    this.otp = { code: otp, expiresAt: new Date(Date.now() + 5 * 60 * 1000) };
    return otp;  -/
def generateOTP (r : ℚ) (now : Int) (_prev : Option OTPChallenge) :
    String × OTPChallenge :=
  let otp := genOTPCode r
  (otp, { code := some otp, expiresAt := some (now + 5 * 60 * 1000) })

/-! ### User entity (`User.js`) and the `POST /verify-otp` handler -/

structure UserRec where
  name : String
  email : String
  password : String
  verified : Bool
  otp : Option OTPChallenge
  deriving Repr, DecidableEq

/-- The `verifyOTP` method run on a `User` document, as a state
transformer: the method body reads `this.otp` and assigns nothing, so the
resulting state is the incoming state. -/
def userVerifyOTPRun (u : UserRec) (now : Int) (candidate : String) :
    Bool × UserRec :=
  (verifyOTP u.otp now candidate, u)

/-- Outcome of the `POST /verify-otp` route handler. -/
inductive VerifyHandlerOutcome where
  | notFound
  | invalidOtp
  | ok
  deriving Repr, DecidableEq

/-- Embeds the `POST /verify-otp` handler: user looked up by email
(`none` = not found), then `user.verifyOTP(otp)`; on success the handler —
not the primitive — sets `verified = true` and clears the challenge. -/
def verifyOtpHandler (user : Option UserRec) (now : Int) (candidate : String) :
    VerifyHandlerOutcome × Option UserRec :=
  match user with
  | none => (.notFound, none)
  | some u =>
    if verifyOTP u.otp now candidate then
      (.ok, some { u with verified := true, otp := none })
    else (.invalidOtp, some u)

/-! ### Authorization matrix (`middleware/auth.js`, `authorize`) -/

/-- Decision of the `authorize` middleware: either the request proceeds
(`next()` is called) or a 403 response with a fixed message is sent. -/
inductive AuthDecision where
  | permit
  | deny (message : String)
  deriving Repr, DecidableEq

def insufficientMsg : String := "Access denied. Insufficient permissions."

def superAdminMsg : String := "Access denied. Super admin privileges required."

def invalidTypeMsg : String := "Access denied. Invalid user type."

/-- Embeds `authorize(...roles)` applied to a request whose
`req.userType` is `userType` and whose resolved principal has
`req.user.role = role` (the role is read only on the admin path).
Mirrors the control flow of `auth.js` lines 86–131. -/
def authorize (roles : List String) (userType role : String) : AuthDecision :=
  if userType == "user" then
    if !(roles.contains "user") then .deny insufficientMsg
    else .permit
  else if userType == "admin" then
    if role == "main" then .permit
    else if !(roles.contains "admin") then .deny insufficientMsg
    else if roles.contains "superadmin" && !(role == "main") then .deny superAdminMsg
    else .permit
  else .deny invalidTypeMsg

/-! ### Donor entity (`Donor.js`) and the admin donor routes -/

structure DonorRec where
  name : String
  rollNo : String
  bloodGroup : String
  age : Int
  phone : String
  email : String
  branch : String
  year : String
  medicalHistory : String
  lastDonation : Option Int
  isActive : Bool
  deriving Repr, DecidableEq

/-- Milliseconds in a day, the divisor `1000 * 60 * 60 * 24`. -/
def msPerDay : Int := 1000 * 60 * 60 * 24

/-- `Math.floor((now - this.lastDonation) / (1000*60*60*24))`: floor
division of the elapsed milliseconds. -/
def daysSinceLastDonation (lastDonation now : Int) : Int :=
  Int.fdiv (now - lastDonation) msPerDay

/-- Embeds the virtual `isEligibleForDonation` (`Donor.js` lines 62–70). -/
def isEligibleForDonation (d : DonorRec) (now : Int) : Bool :=
  match d.lastDonation with
  | none => true
  | some last => daysSinceLastDonation last now ≥ 90

/-- Embeds the method `getDaysUntilEligible` (`Donor.js` lines 73–86). -/
def getDaysUntilEligible (d : DonorRec) (now : Int) : Int :=
  match d.lastDonation with
  | none => 0
  | some last =>
    if daysSinceLastDonation last now ≥ 90 then 0
    else 90 - daysSinceLastDonation last now

/-- Embeds the method `recordDonation` (`Donor.js` lines 89–92):
`this.lastDonation = new Date()`. -/
def recordDonation (d : DonorRec) (now : Int) : DonorRec :=
  { d with lastDonation := some now }

/-- Outcome of the `POST /:id/record-donation` handler. -/
inductive RecordDonationOutcome where
  | notFound
  | notEligible (daysLeft : Int)
  | success
  deriving Repr, DecidableEq

/-- Embeds the `POST /:id/record-donation` handler
(`adminDonorRoutes.js` lines 207–241): look up the donor (`none` = no such
document), 404 when missing or inactive, 400 with the remaining days when
ineligible, otherwise record the donation.  Returns the outcome and the
donor state after the call. -/
def recordDonationHandler (donor : Option DonorRec) (now : Int) :
    RecordDonationOutcome × Option DonorRec :=
  match donor with
  | none => (.notFound, none)
  | some d =>
    if !d.isActive then (.notFound, some d)
    else if !(isEligibleForDonation d now) then
      (.notEligible (getDaysUntilEligible d now), some d)
    else (.success, some (recordDonation d now))

/-- The route-level age validation of donor create (`adminDonorRoutes.js`
lines 79–84) and update (lines 130–135): `if (age < 16 || age > 65)`
rejects with a 400. -/
def routeRejectsAge (age : Int) : Bool :=
  age < 16 || age > 65

/-- The persisted-schema age constraint (`Donor.js` lines 19–24):
`min: 18, max: 65`. -/
def schemaAgeValid (age : Int) : Bool :=
  18 ≤ age && age ≤ 65

/-! ### Admin request approval (`adminRequestRoutes.js`, `POST /approve/:id`) -/

/-- The `AdminRequest` document fields the approval handler reads; the
profile fields are optional in the schema (set only during the submit
step). -/
structure AdminRequestRec where
  name : Option String
  email : String
  rollNo : Option String
  branch : Option String
  year : Option String
  phone : Option String
  password : Option String
  status : String
  emailVerified : Bool
  reviewedBy : Option Int
  reviewedAt : Option Int
  deriving Repr, DecidableEq

/-- The document inserted into the `Admin` collection on approval. -/
structure AdminData where
  name : String
  email : String
  password : String
  role : String
  createdAt : Int
  updatedAt : Int
  deriving Repr, DecidableEq

/-- Outcome of the `POST /approve/:id` handler. -/
inductive ApproveOutcome where
  | forbidden
  | notFound
  | incomplete (missingFields : List String)
  | approved (admin : AdminData) (request : AdminRequestRec)
  deriving Repr, DecidableEq

/-- The missing-field scan of the approval handler
(`adminRequestRoutes.js` lines 180–186); each `if (!adminRequest.f)` is a
JS truthiness test, so an unset or empty-string field counts as missing. -/
def missingFields (r : AdminRequestRec) : List String :=
  (if !(strTruthy r.name) then ["name"] else []) ++
  (if !(strTruthy r.password) then ["password"] else []) ++
  (if !(strTruthy r.rollNo) then ["rollNo"] else []) ++
  (if !(strTruthy r.branch) then ["branch"] else []) ++
  (if !(strTruthy r.year) then ["year"] else []) ++
  (if !(strTruthy r.phone) then ["phone"] else [])

/-- Embeds the `POST /approve/:id` handler (`adminRequestRoutes.js`
lines 156–229): super-admin double check, lookup and pending check,
required-field validation, then creation of the admin account with
`role: 'normal'` and the audit update of the request. -/
def approveRequestHandler (actorRole : String) (actorId : Int)
    (request : Option AdminRequestRec) (now : Int) : ApproveOutcome :=
  if !(actorRole == "main") then .forbidden
  else match request with
    | none => .notFound
    | some r =>
      if !(r.status == "pending") then .notFound
      else if !(missingFields r).isEmpty then .incomplete (missingFields r)
      else
        .approved
          { name := r.name.getD ""
            email := r.email
            password := r.password.getD ""
            role := "normal"
            createdAt := now
            updatedAt := now }
          { r with status := "approved"
                   reviewedBy := some actorId
                   reviewedAt := some now }

/-! ## Theorems -/

/-! ### Decimal-rendering helper lemmas (`Nat.repr` as used by
`generateOTP`'s `.toString()`) -/

theorem length_le_toDigitsCore (b : ℕ) :
    ∀ (f n : ℕ) (l : List Char), l.length ≤ (Nat.toDigitsCore b f n l).length := by
  intro f
  induction f with
  | zero =>
    intro n l
    simp [Nat.toDigitsCore]
  | succ f ih =>
    intro n l
    simp only [Nat.toDigitsCore]
    by_cases h : n / b = 0
    · simp [h]
    · rw [if_neg h]
      calc l.length ≤ (Nat.digitChar (n % b) :: l).length := by simp
        _ ≤ _ := ih (n / b) (Nat.digitChar (n % b) :: l)

theorem toDigitsCore_length_lower :
    ∀ (k f n : ℕ) (l : List Char), 10 ^ k ≤ n → k + 1 ≤ f →
      k + 1 + l.length ≤ (Nat.toDigitsCore 10 f n l).length := by
  intro k
  induction k with
  | zero =>
    intro f n l hn hf
    obtain ⟨f, rfl⟩ : ∃ g, f = g + 1 := ⟨f - 1, by omega⟩
    simp only [Nat.toDigitsCore]
    by_cases h : n / 10 = 0
    · simp [h]
      omega
    · rw [if_neg h]
      have := length_le_toDigitsCore 10 f (n / 10) (Nat.digitChar (n % 10) :: l)
      simp only [List.length_cons] at this
      omega
  | succ k ih =>
    intro f n l hn hf
    obtain ⟨f, rfl⟩ : ∃ g, f = g + 1 := ⟨f - 1, by omega⟩
    have hd : 10 ^ k ≤ n / 10 := by
      rw [Nat.le_div_iff_mul_le (by norm_num)]
      calc 10 ^ k * 10 = 10 ^ (k + 1) := (pow_succ 10 k).symm
        _ ≤ n := hn
    have h : n / 10 ≠ 0 := by
      have : 0 < 10 ^ k := Nat.pos_pow_of_pos k (by norm_num)
      omega
    simp only [Nat.toDigitsCore]
    rw [if_neg h]
    have := ih f (n / 10) (Nat.digitChar (n % 10) :: l) hd (by omega)
    simp only [List.length_cons] at this
    omega

theorem repr_length_lower (e n : ℕ) (h : 10 ^ e ≤ n) :
    e + 1 ≤ (Nat.repr n).length := by
  have he : e + 1 ≤ n + 1 := by
    have := Nat.lt_pow_self (by norm_num : 1 < 10) e
    omega
  have := toDigitsCore_length_lower e (n + 1) n [] h he
  simpa [Nat.repr, Nat.toDigits, List.asString, String.length] using this

theorem repr_length_six (n : ℕ) (h1 : 100000 ≤ n) (h2 : n ≤ 999999) :
    (Nat.repr n).length = 6 :=
  le_antisymm (Nat.repr_length n 6 (by norm_num) (by omega))
    (repr_length_lower 5 n (by omega))

theorem digitChar_isDigit (m : ℕ) (h : m < 10) :
    (Nat.digitChar m).isDigit = true := by
  interval_cases m <;> decide

theorem mem_toDigitsCore_ten :
    ∀ (f n : ℕ) (l : List Char) (c : Char), c ∈ Nat.toDigitsCore 10 f n l →
      c ∈ l ∨ c.isDigit = true := by
  intro f
  induction f with
  | zero =>
    intro n l c hc
    exact Or.inl (by simpa [Nat.toDigitsCore] using hc)
  | succ f ih =>
    intro n l c hc
    simp only [Nat.toDigitsCore] at hc
    by_cases h : n / 10 = 0
    · rw [if_pos h] at hc
      rcases List.mem_cons.mp hc with h1 | h1
      · exact Or.inr (h1 ▸ digitChar_isDigit _ (Nat.mod_lt n (by norm_num)))
      · exact Or.inl h1
    · rw [if_neg h] at hc
      rcases ih (n / 10) (Nat.digitChar (n % 10) :: l) c hc with h1 | h1
      · rcases List.mem_cons.mp h1 with h2 | h2
        · exact Or.inr (h2 ▸ digitChar_isDigit _ (Nat.mod_lt n (by norm_num)))
        · exact Or.inl h2
      · exact Or.inr h1

theorem repr_all_digits (n : ℕ) :
    ∀ c ∈ (Nat.repr n).data, c.isDigit = true := by
  intro c hc
  have hc' : c ∈ Nat.toDigitsCore 10 (n + 1) n [] := by
    simpa [Nat.repr, Nat.toDigits, List.asString] using hc
  rcases mem_toDigitsCore_ten (n + 1) n [] c hc' with h | h
  · exact absurd h (List.not_mem_nil c)
  · exact h

theorem genOTPValue_range (r : ℚ) (h0 : 0 ≤ r) (h1 : r < 1) :
    100000 ≤ genOTPValue r ∧ genOTPValue r ≤ 999999 := by
  constructor
  · rw [genOTPValue, Int.le_floor]
    push_cast
    nlinarith
  · have hlt : genOTPValue r < 1000000 := by
      rw [genOTPValue, Int.floor_lt]
      push_cast
      nlinarith
    omega

/-- C1: The authorization decision is a total function of
(principalKind, principalRole, requiredRoles): for every required-role
set, a principal of kind user is permitted iff `"user"` is in the set; an
admin with role `"main"` is permitted unconditionally (including when the
set is empty); an admin with role `"normal"` is permitted iff `"admin"`
is in the set and `"superadmin"` is not in the set; every other
combination (any principal kind other than user or admin) is denied. -/
theorem authorize_matrix (roles : List String) (role : String) :
    (authorize roles "user" role = .permit ↔ "user" ∈ roles) ∧
    authorize roles "admin" "main" = .permit ∧
    (authorize roles "admin" "normal" = .permit ↔
      ("admin" ∈ roles ∧ "superadmin" ∉ roles)) ∧
    (∀ userType, userType ≠ "user" → userType ≠ "admin" →
      authorize roles userType role ≠ .permit) := by
  refine ⟨?_, ?_, ?_, ?_⟩
  · simp [authorize]
  · simp [authorize]
  · by_cases hA : "admin" ∈ roles <;> by_cases hS : "superadmin" ∈ roles <;>
      simp [authorize, hA, hS]
  · intro userType h1 h2
    simp [authorize, h1, h2]

/-- Closed instance of `authorize_matrix` exercising each clause at
concrete inputs. -/
theorem authorize_matrix_witness :
    authorize ["user"] "user" "x" = .permit ∧
    authorize [] "admin" "main" = .permit ∧
    authorize ["admin", "superadmin"] "admin" "normal" ≠ .permit ∧
    authorize ["user", "admin"] "guest" "main" ≠ .permit :=
  ⟨(authorize_matrix ["user"] "x").1.mpr (by decide),
   (authorize_matrix [] "x").2.1,
   fun h => by
     have := (authorize_matrix ["admin", "superadmin"] "x").2.2.1.mp h
     exact absurd (by decide : "superadmin" ∈ ["admin", "superadmin"]) this.2,
   (authorize_matrix ["user", "admin"] "main").2.2.2 "guest" (by decide) (by decide)⟩

/-- C7 (counterexample): the claim says every denial of a normal admin on
a required set containing `"superadmin"` carries the specific
super-admin message; but when the set contains `"superadmin"` without
`"admin"`, the `!roles.includes('admin')` check fires first and the
denial carries the generic insufficient-permissions message. -/
theorem authorize_superadmin_reason_cex :
    "superadmin" ∈ ["superadmin"] ∧
    authorize ["superadmin"] "admin" "normal" = .deny insufficientMsg ∧
    insufficientMsg ≠ superAdminMsg :=
  ⟨by decide, rfl, by decide⟩

/-- C7 (amended): for an authenticated principal of kind user or admin,
a denial carries the specific super-admin message exactly when the
principal is an admin and the required set contains both `"admin"` and
`"superadmin"`; every other denial carries the generic
insufficient-permissions message. -/
theorem authorize_denial_reasons (roles : List String) (userType role : String)
    (hk : userType = "user" ∨ userType = "admin") (msg : String)
    (h : authorize roles userType role = .deny msg) :
    msg = if userType = "admin" ∧ "admin" ∈ roles ∧ "superadmin" ∈ roles
          then superAdminMsg else insufficientMsg := by
  rcases hk with rfl | rfl
  · by_cases hU : "user" ∈ roles <;> simp_all [authorize]
  · by_cases hM : role = "main"
    · simp [authorize, hM] at h
    · by_cases hA : "admin" ∈ roles <;> by_cases hS : "superadmin" ∈ roles <;>
        simp_all [authorize]

/-- Closed instance of `authorize_denial_reasons`: a normal admin denied
on `{admin, superadmin}` receives the super-admin message. -/
theorem authorize_denial_reasons_witness :
    superAdminMsg =
      if ("admin" : String) = "admin" ∧ "admin" ∈ ["admin", "superadmin"] ∧
          "superadmin" ∈ ["admin", "superadmin"]
      then superAdminMsg else insufficientMsg :=
  authorize_denial_reasons ["admin", "superadmin"] "admin" "normal"
    (Or.inr rfl) superAdminMsg rfl

/-- C8: the route-level validation on donor create and update rejects
exactly ages below 16 or above 65, while the persisted schema constraint
accepts exactly ages between 18 and 65 inclusive. -/
theorem donor_age_bounds (age : Int) :
    (routeRejectsAge age = true ↔ (age < 16 ∨ 65 < age)) ∧
    (schemaAgeValid age = true ↔ (18 ≤ age ∧ age ≤ 65)) := by
  constructor <;> simp [routeRejectsAge, schemaAgeValid]

/-- Closed instance of `donor_age_bounds`: 15 is rejected by the route
check, 17 passes the route check, yet 17 violates the schema bound while
18 satisfies it. -/
theorem donor_age_bounds_witness :
    routeRejectsAge 15 = true ∧
    routeRejectsAge 17 ≠ true ∧
    schemaAgeValid 17 ≠ true ∧
    schemaAgeValid 18 = true :=
  ⟨(donor_age_bounds 15).1.mpr (by norm_num),
   fun h => by have := (donor_age_bounds 17).1.mp h; omega,
   fun h => by have := (donor_age_bounds 17).2.mp h; omega,
   (donor_age_bounds 18).2.mpr (by norm_num)⟩

/-- C3: eligibility is true iff `lastDonation` is absent or
`floor((now - lastDonation) / 1 day) ≥ 90` (so a donor at exactly 90.0
elapsed days is eligible and one millisecond earlier is not), and
`getDaysUntilEligible` returns 0 when `lastDonation` is absent or the
donor is already eligible, otherwise `90 - floor((now - lastDonation) /
1 day)`; the result is always a nonnegative integer. -/
theorem donor_eligibility_spec (d : DonorRec) (now : Int) :
    (d.lastDonation = none →
      isEligibleForDonation d now = true ∧ getDaysUntilEligible d now = 0) ∧
    (∀ last, d.lastDonation = some last →
      ((isEligibleForDonation d now = true ↔
          90 ≤ Int.fdiv (now - last) msPerDay) ∧
       (isEligibleForDonation d now = true → getDaysUntilEligible d now = 0) ∧
       (isEligibleForDonation d now = false →
          getDaysUntilEligible d now = 90 - Int.fdiv (now - last) msPerDay))) ∧
    0 ≤ getDaysUntilEligible d now ∧
    (d.lastDonation = some (now - 90 * msPerDay) →
      isEligibleForDonation d now = true) ∧
    (d.lastDonation = some (now - (90 * msPerDay - 1)) →
      isEligibleForDonation d now = false) := by
  refine ⟨?_, ?_, ?_, ?_, ?_⟩
  · intro h
    simp [isEligibleForDonation, getDaysUntilEligible, h]
  · intro last h
    refine ⟨?_, ?_, ?_⟩
    · simp [isEligibleForDonation, h, daysSinceLastDonation, ge_iff_le]
    · intro he
      simp only [isEligibleForDonation, h, daysSinceLastDonation, ge_iff_le,
        decide_eq_true_eq] at he
      simp [getDaysUntilEligible, h, daysSinceLastDonation, ge_iff_le, he]
    · intro he
      simp only [isEligibleForDonation, h, daysSinceLastDonation, ge_iff_le,
        decide_eq_false_iff_not] at he
      simp [getDaysUntilEligible, h, daysSinceLastDonation, ge_iff_le, he]
  · rcases hl : d.lastDonation with _ | last
    · simp [getDaysUntilEligible, hl]
    · simp only [getDaysUntilEligible, hl]
      split
      · exact le_refl 0
      · omega
  · intro h
    have e1 : now - (now - 90 * msPerDay) = 7776000000 := by
      simp [msPerDay]
    simp [isEligibleForDonation, h, daysSinceLastDonation, e1]
    decide
  · intro h
    have e1 : now - (now - (90 * msPerDay - 1)) = 7775999999 := by
      simp [msPerDay]
    simp [isEligibleForDonation, h, daysSinceLastDonation, e1]
    decide

/-- Closed instance of `donor_eligibility_spec`: a donor who last donated
at time 0 is eligible at exactly 90 days and ineligible one millisecond
earlier, with one remaining day reported at 89 elapsed days. -/
theorem donor_eligibility_spec_witness :
    isEligibleForDonation
      ⟨"a", "r", "A+", 20, "p", "e", "b", "y", "", some 0, true⟩
      7776000000 = true ∧
    isEligibleForDonation
      ⟨"a", "r", "A+", 20, "p", "e", "b", "y", "", some 0, true⟩
      7775999999 = false ∧
    getDaysUntilEligible
      ⟨"a", "r", "A+", 20, "p", "e", "b", "y", "", some 0, true⟩
      7775999999 = 1 := by
  refine ⟨?_, ?_, ?_⟩
  · exact (donor_eligibility_spec
      ⟨"a", "r", "A+", 20, "p", "e", "b", "y", "", some 0, true⟩
      7776000000).2.2.2.1 (by norm_num [msPerDay])
  · exact (donor_eligibility_spec
      ⟨"a", "r", "A+", 20, "p", "e", "b", "y", "", some 0, true⟩
      7775999999).2.2.2.2 (by norm_num [msPerDay])
  · have h := ((donor_eligibility_spec
      ⟨"a", "r", "A+", 20, "p", "e", "b", "y", "", some 0, true⟩
      7775999999).2.1 0 rfl).2.2
    rw [h (by decide)]
    decide

/-- C10: the record-donation handler is atomic with respect to
eligibility: for an active donor, if the donor is not eligible the
handler reports the remaining days and returns the donor state
unchanged; if the donor is eligible it sets `lastDonation` to the
current time, after which eligibility is false and the remaining-days
count is 90. -/
theorem record_donation_spec (d : DonorRec) (now : Int) (h : d.isActive = true) :
    (isEligibleForDonation d now = false →
      recordDonationHandler (some d) now =
        (.notEligible (getDaysUntilEligible d now), some d)) ∧
    (isEligibleForDonation d now = true →
      recordDonationHandler (some d) now =
        (.success, some (recordDonation d now)) ∧
      (recordDonation d now).lastDonation = some now ∧
      isEligibleForDonation (recordDonation d now) now = false ∧
      getDaysUntilEligible (recordDonation d now) now = 90) := by
  constructor
  · intro hne
    simp [recordDonationHandler, h, hne]
  · intro he
    refine ⟨by simp [recordDonationHandler, h, he], rfl, ?_, ?_⟩
    · simp [isEligibleForDonation, recordDonation, daysSinceLastDonation,
        sub_self, Int.zero_fdiv]
    · simp [getDaysUntilEligible, recordDonation, daysSinceLastDonation,
        sub_self, Int.zero_fdiv]

/-- Closed instance of `record_donation_spec`: recording a donation for a
never-donated active donor succeeds and leaves the donor 90 days from
eligibility. -/
theorem record_donation_spec_witness :
    recordDonationHandler
      (some ⟨"a", "r", "A+", 20, "p", "e", "b", "y", "", none, true⟩) 0 =
      (.success,
       some (recordDonation ⟨"a", "r", "A+", 20, "p", "e", "b", "y", "", none, true⟩ 0)) ∧
    getDaysUntilEligible
      (recordDonation ⟨"a", "r", "A+", 20, "p", "e", "b", "y", "", none, true⟩ 0) 0 = 90 :=
  have h := record_donation_spec
    ⟨"a", "r", "A+", 20, "p", "e", "b", "y", "", none, true⟩ 0 rfl
  ⟨(h.2 rfl).1, (h.2 rfl).2.2.2⟩

/-- C2 (counterexample): the claim says `verify` returns true whenever a
challenge is stored, the current time is at or before `expiresAt`, and
the candidate exactly matches the stored code; but a stored challenge
whose code is the empty string is rejected by the JS truthiness guard
`!this.otp.code`, so an exact match on the empty code still yields
false. -/
theorem verifyOTP_empty_code_cex :
    (some (⟨some "", some 1000⟩ : OTPChallenge)) ≠ none ∧
    ¬((0 : Int) > 1000) ∧
    ("" : String) = "" ∧
    verifyOTP (some ⟨some "", some 1000⟩) 0 "" = false :=
  ⟨by simp, by decide, rfl, rfl⟩

/-- C2 (amended): `verify` fails closed — it returns false when no
challenge is stored (including a stored challenge with a missing or
empty-string code, or a missing expiry, which the truthiness guard
treats as absent), and for a stored challenge with a non-empty code it
returns true iff the current time is at or before `expiresAt` (a call
exactly at the expiry instant still succeeds) and the candidate exactly
string-matches the code; the function is total and never throws. -/
theorem verifyOTP_spec (otp : Option OTPChallenge) (now : Int) (candidate : String) :
    (otp = none → verifyOTP otp now candidate = false) ∧
    (∀ ch, otp = some ch →
      (ch.code = none ∨ ch.code = some "" ∨ ch.expiresAt = none) →
      verifyOTP otp now candidate = false) ∧
    (∀ ch code e, otp = some ch → ch.code = some code → code ≠ "" →
      ch.expiresAt = some e →
      (verifyOTP otp now candidate = true ↔ (now ≤ e ∧ code = candidate))) := by
  refine ⟨?_, ?_, ?_⟩
  · intro h
    simp [verifyOTP, h]
  · rintro ch rfl (hc | hc | hc) <;>
      simp [verifyOTP, strTruthy, hc]
  · rintro ch code e rfl hc hne he
    obtain ⟨cc, ce⟩ := ch
    dsimp at hc he
    subst hc
    subst he
    have hbe : (code == "") = false := by simpa using hne
    simp only [verifyOTP, strTruthy, hbe, Bool.not_false, Bool.not_true,
      Bool.false_eq_true, if_false, Option.getD_some]
    by_cases ht : now > e
    · simp [ht]
    · have h2 : now ≤ e := by omega
      simp [ht, h2, beq_iff_eq]

/-- Closed instance of `verifyOTP_spec`: the correct code verifies at the
exact expiry instant. -/
theorem verifyOTP_spec_witness :
    verifyOTP (some ⟨some "123456", some 1000⟩) 1000 "123456" = true :=
  ((verifyOTP_spec (some ⟨some "123456", some 1000⟩) 1000 "123456").2.2
      ⟨some "123456", some 1000⟩ "123456" 1000 rfl rfl (by decide) rfl).mpr
    ⟨by norm_num, rfl⟩

/-- C6: `verifyOTP` leaves the target's state completely unchanged — it
does not clear the stored challenge and does not set any verified flag,
even on a true result; on success the `POST /verify-otp` handler (the
caller), not the primitive, sets `verified` and clears the challenge. -/
theorem verifyOTP_frame (u : UserRec) (now : Int) (candidate : String) :
    (userVerifyOTPRun u now candidate).2 = u ∧
    (userVerifyOTPRun u now candidate).2.otp = u.otp ∧
    (userVerifyOTPRun u now candidate).2.verified = u.verified ∧
    (verifyOTP u.otp now candidate = true →
      verifyOtpHandler (some u) now candidate =
        (.ok, some { u with verified := true, otp := none })) := by
  refine ⟨rfl, rfl, rfl, fun h => ?_⟩
  simp [verifyOtpHandler, h]

/-- Closed instance of `verifyOTP_frame`: verifying a correct code
returns true yet leaves the stored challenge in place, while the handler
clears it. -/
theorem verifyOTP_frame_witness :
    (userVerifyOTPRun ⟨"n", "e", "p", false, some ⟨some "111111", some 10⟩⟩ 5 "111111").2.otp =
      some ⟨some "111111", some 10⟩ ∧
    verifyOtpHandler (some ⟨"n", "e", "p", false, some ⟨some "111111", some 10⟩⟩) 5 "111111" =
      (.ok, some ⟨"n", "e", "p", true, none⟩) :=
  have h := verifyOTP_frame ⟨"n", "e", "p", false, some ⟨some "111111", some 10⟩⟩ 5 "111111"
  ⟨h.2.1, h.2.2.2 (by decide)⟩

/-- C9: every admin account created through the admin-request approval
handler is created with role `"normal"` — approval never grants the
super-admin (`"main"`) role, for every approved request. -/
theorem approve_creates_normal_admin (actorRole : String) (actorId : Int)
    (request : Option AdminRequestRec) (now : Int) (admin : AdminData)
    (updated : AdminRequestRec)
    (h : approveRequestHandler actorRole actorId request now =
      .approved admin updated) :
    admin.role = "normal" := by
  unfold approveRequestHandler at h
  split at h
  · cases h
  · split at h
    · cases h
    · split at h
      · cases h
      · split at h
        · cases h
        · rw [ApproveOutcome.approved.injEq] at h
          rw [← h.1]

/-- Closed instance of `approve_creates_normal_admin`: approving a
complete pending request creates an admin whose role is `"normal"`. -/
theorem approve_creates_normal_admin_witness :
    (AdminData.mk "n" "e" "pw" "normal" 5 5).role = "normal" :=
  approve_creates_normal_admin "main" 1
    (some ⟨some "n", "e", some "r", some "b", some "y", some "p", some "pw",
      "pending", true, none, none⟩) 5
    (AdminData.mk "n" "e" "pw" "normal" 5 5)
    ⟨some "n", "e", some "r", some "b", some "y", some "p", some "pw",
      "approved", true, some 1, some 5⟩ rfl

/-- C4: for every random draw `r ∈ [0,1)`, `generateOTP` produces a
6-character digit string whose numeric value lies in
`[100000, 999999]` (never below 100000, so no leading zero), stores it
on the target together with `expiresAt` equal to the generation time
plus exactly 300 seconds, overwriting any previously stored challenge
(the result is independent of `prev`), and returns the code. -/
theorem generateOTP_spec (r : ℚ) (now : Int) (prev : Option OTPChallenge)
    (h0 : 0 ≤ r) (h1 : r < 1) :
    100000 ≤ genOTPValue r ∧ genOTPValue r ≤ 999999 ∧
    genOTPCode r = Nat.repr (genOTPValue r).toNat ∧
    (genOTPCode r).length = 6 ∧
    (∀ c ∈ (genOTPCode r).data, c.isDigit = true) ∧
    (generateOTP r now prev).1 = genOTPCode r ∧
    (generateOTP r now prev).2 =
      { code := some (genOTPCode r), expiresAt := some (now + 300 * 1000) } := by
  obtain ⟨hl, hu⟩ := genOTPValue_range r h0 h1
  refine ⟨hl, hu, rfl, ?_, repr_all_digits _, rfl, ?_⟩
  · exact repr_length_six _ (by omega) (by omega)
  · norm_num [generateOTP]

/-- Closed instance of `generateOTP_spec` at the draw `r = 0`: the code
is `"100000"` and the challenge expires 300 seconds after generation. -/
theorem generateOTP_spec_witness :
    (generateOTP 0 0 (some ⟨some "old", some 1⟩)).1 = genOTPCode 0 ∧
    (generateOTP 0 0 (some ⟨some "old", some 1⟩)).2 =
      { code := some (genOTPCode 0), expiresAt := some (0 + 300 * 1000) } ∧
    (genOTPCode 0).length = 6 :=
  have h := generateOTP_spec 0 0 (some ⟨some "old", some 1⟩) le_rfl (by norm_num)
  ⟨h.2.2.2.2.2.1, h.2.2.2.2.2.2, h.2.2.2.1⟩

/-- C5: round trip — for every target entity, if `generateOTP` returns a
code, then `verifyOTP` on the stored challenge evaluated at any time at
or before the stored `expiresAt` (with no intervening mutation of the
challenge) returns true for that code. -/
theorem generate_verify_roundtrip (r : ℚ) (now now' : Int)
    (prev : Option OTPChallenge) (h0 : 0 ≤ r) (h1 : r < 1)
    (ht : now' ≤ now + 5 * 60 * 1000) :
    verifyOTP (some (generateOTP r now prev).2) now'
      (generateOTP r now prev).1 = true := by
  have hlen : (genOTPCode r).length = 6 :=
    (generateOTP_spec r now prev h0 h1).2.2.2.1
  have hne : genOTPCode r ≠ "" := by
    intro h
    rw [h] at hlen
    simp at hlen
  have hbe : (genOTPCode r == "") = false := by simpa using hne
  have hnt : ¬(now' > now + 5 * 60 * 1000) := by omega
  simp [verifyOTP, generateOTP, strTruthy, hbe, hnt]
  omega

/-- Closed instance of `generate_verify_roundtrip`: the code generated at
time 0 with draw 0 verifies immediately. -/
theorem generate_verify_roundtrip_witness :
    verifyOTP (some (generateOTP 0 0 none).2) 0 (generateOTP 0 0 none).1 = true :=
  generate_verify_roundtrip 0 0 0 none le_rfl (by norm_num) (by norm_num)

end NSS
